import Mathlib

/-!
# Auth handlers of `src/controllers/authController.js`

A shallow embedding of the five authentication handlers (`registerUser`,
`loginUser`, `logOutUser`, `refreshToken`, `authorise`) and the properties of
their responses.

Modelling conventions.

* A field of the request body is a `JSVal`: any value a JSON body can carry,
  or `undefined` for a key that is absent.
* Any other JavaScript value that may be `undefined` is an `Option`; `none` is
  `undefined` (or `null`, which the handlers treat alike).  Cookie values, ids
  and tokens are strings.
* The collaborators the file imports (the `User` model, the token generators,
  `jsonwebtoken`) and `process.env` are the fields of `Env`.  Every call that
  can throw in JavaScript returns an `Except Thrown _`; the model constructor
  only builds the document in memory.
* The Express response object is the record `Res`; `res.status`, `res.cookie`,
  `res.clearCookie` and `res.json` are the functions of the same names.
* A handler returns an `Outcome`: the response it wrote, the collaborator calls
  it made (in order) and the exception that left the handler, if any.
-/

namespace AuthController

/-! ## Data model -/

/-- An exception value: an `Error` object with its `message`. -/
structure Thrown where
  message : String
  deriving DecidableEq, Repr

/-- A document of the `User` model (`../models/userModel`). -/
structure User where
  id : Option String := none
  firstname : Option String := none
  lastname : Option String := none
  email : Option String := none
  password : Option String := none
  fullname : Option String := none
  role : Option String := none
  deriving DecidableEq, Repr

/-- A value of a field of the parsed JSON body.  A number is an integer in
the safe range (a number with a fraction behaves as any non-zero one); an
object or array is kept as the text its string conversion gives. -/
inductive JSVal where
  /-- The key is absent. -/
  | undefined
  | null
  | bool (b : Bool)
  | num (n : Int)
  | str (s : String)
  | object (text : String)
  deriving DecidableEq, Repr

/-- The parsed request body, `req.body`. -/
structure ReqBody where
  firstname : JSVal := .undefined
  lastname : JSVal := .undefined
  email : JSVal := .undefined
  password : JSVal := .undefined
  deriving DecidableEq, Repr

/-- The parsed cookies, `req.cookies`. -/
structure CookieJar where
  refreshToken : Option String := none
  deriving DecidableEq, Repr

/-- The caller identity an upstream middleware attaches as `req.user`. -/
structure Caller where
  id : Option String := none
  role : Option String := none
  deriving DecidableEq, Repr

/-- The Express request, restricted to what the handlers read.  Each of
`req.body`, `req.cookies` and `req.user` may be `undefined`. -/
structure Req where
  body : Option ReqBody := none
  cookies : Option CookieJar := none
  user : Option Caller := none
  deriving DecidableEq, Repr

/-- What `jwt.verify` hands back when it does not throw.  The library returns
the decoded payload (`claims`); the two other shapes are the falsy values the
handlers test for with `!validToken`. -/
inductive Decoded where
  /-- The values `null` and `undefined`: reading `.id` throws a TypeError. -/
  | nothing
  /-- A falsy value that is not nullish, such as the empty string: reading
  `.id` gives `undefined`. -/
  | blank
  /-- A decoded payload (truthy) and its `id` property. -/
  | claims (id : Option String)
  deriving DecidableEq, Repr

/-- One cookie written on the response by `res.cookie` or `res.clearCookie`.
`value = none` and `maxAge = none` are what `clearCookie` writes; `maxAge` is
in milliseconds, as Express takes it. -/
structure Cookie where
  name : String
  value : Option String
  httpOnly : Bool
  secure : Bool
  sameSite : String
  maxAge : Option Nat
  deriving DecidableEq, Repr

/-- The `data` object of a success body. -/
structure Payload where
  user : Option User := none
  accessToken : Option String := none
  refreshToken : Option String := none
  deriving DecidableEq, Repr

/-- A JSON body passed to `res.json`.  A key that is `none` is not part of
the serialised object. -/
structure Body where
  status : Option String := none
  message : Option String := none
  error : Option String := none
  data : Option Payload := none
  accessToken : Option String := none
  deriving DecidableEq, Repr

/-- The Express response object: the status code (200 until `res.status` is
called), the cookies written so far and the JSON body sent, if any. -/
structure Res where
  statusCode : Nat := 200
  cookies : List Cookie := []
  body : Option Body := none
  deriving DecidableEq, Repr

/-- A call to a collaborator, with its arguments. -/
inductive Call where
  | save (user : User)
  | findOne (email : JSVal)
  | findById (id : Option String)
  | isValidatePassword (user : User) (password : JSVal)
  | genAccessToken (user : User)
  | genRefreshToken (user : User)
  | jwtVerify (token : Option String) (secret : Option String)
  deriving DecidableEq, Repr

/-- The collaborators and the configuration the handlers read. -/
structure Env where
  /-- The constructor `new User({firstname, lastname, email, password})`: the
  document the model builds from the four values. -/
  newUser : JSVal → JSVal → JSVal → JSVal → User
  /-- The method `user.save()`: the document as it is after the save, or the
  store failure. -/
  save : User → Except Thrown User
  /-- The query `User.findOne` by email. -/
  findOne : JSVal → Except Thrown (Option User)
  /-- The query `User.findById`. -/
  findById : Option String → Except Thrown (Option User)
  /-- The method `user.isValidatePassword(password)`. -/
  isValidatePassword : User → JSVal → Except Thrown Bool
  /-- The generator `genAccessToken(user)` of `../middlewares/token`. -/
  genAccessToken : User → Except Thrown String
  /-- The generator `genRefreshToken(user)` of `../middlewares/token`. -/
  genRefreshToken : User → Except Thrown String
  /-- The call `jwt.verify(token, secret)` of `jsonwebtoken`: the decoded
  payload, or the exception the library throws for a token whose signature is
  invalid or that has expired. -/
  jwtVerify : Option String → Option String → Except Thrown Decoded
  /-- The variable `process.env.NODE_ENV`. -/
  nodeEnv : Option String
  /-- The variable `process.env.REFRESH_TOKEN_SECRET`. -/
  refreshTokenSecret : Option String

/-- The result of running a handler. -/
structure Outcome where
  /-- The response object as the handler left it. -/
  res : Res := {}
  /-- The collaborator calls made, in order. -/
  calls : List Call := []
  /-- How many times `next()` was called. -/
  nextCalls : Nat := 0
  /-- The exception that left the handler uncaught, if any. -/
  escaped : Option Thrown := none
  deriving DecidableEq, Repr

/-! ## JavaScript and Express primitives -/

/-- The test `!x` on a value of the request body: `undefined`, `null`,
`false`, `0` and the empty string are falsy, every other value is truthy. -/
def JSVal.falsy (x : JSVal) : Bool :=
  match x with
  | .undefined => true
  | .null => true
  | .bool b => !b
  | .num n => n == 0
  | .str s => s == ""
  | .object _ => false

/-- String conversion of a value of the request body inside a template
literal. -/
def JSVal.toStr (x : JSVal) : String :=
  match x with
  | .undefined => "undefined"
  | .null => "null"
  | .bool b => if b then "true" else "false"
  | .num n => toString n
  | .str s => s
  | .object text => text

/-- The test `!x` on a value that is a string or `undefined`. -/
def falsy (x : Option String) : Bool :=
  match x with
  | none => true
  | some s => s == ""

/-- String conversion inside a template literal. -/
def toStr (x : Option String) : String :=
  match x with
  | none => "undefined"
  | some s => s

/-- The method `res.status(code)`. -/
def Res.status (res : Res) (code : Nat) : Res :=
  { res with statusCode := code }

/-- The options object of `res.cookie` and `res.clearCookie`. -/
structure CookieOptions where
  httpOnly : Bool
  secure : Bool
  sameSite : String
  maxAge : Option Nat := none
  deriving DecidableEq, Repr

/-- The method `res.cookie(name, value, options)`. -/
def Res.cookie (res : Res) (name value : String) (o : CookieOptions) : Res :=
  { res with cookies := res.cookies ++
      [{ name := name, value := some value, httpOnly := o.httpOnly, secure := o.secure,
         sameSite := o.sameSite, maxAge := o.maxAge }] }

/-- The method `res.clearCookie(name, options)`. -/
def Res.clearCookie (res : Res) (name : String) (o : CookieOptions) : Res :=
  { res with cookies := res.cookies ++
      [{ name := name, value := none, httpOnly := o.httpOnly, secure := o.secure,
         sameSite := o.sameSite, maxAge := none }] }

/-- The method `res.json(body)`. -/
def Res.json (res : Res) (body : Body) : Res :=
  { res with body := some body }

/-- The comparison `process.env.NODE_ENV === "production"`. -/
def Env.isProduction (env : Env) : Bool :=
  env.nodeEnv == some "production"

/-- The TypeError of destructuring `req.body` when it is `undefined`. -/
def bodyTypeError : Thrown :=
  { message := "Cannot destructure property \x27firstname\x27 of \x27req.body\x27 as it is undefined." }

/-- The TypeError of reading a property of `undefined`. -/
def propertyTypeError (property : String) : Thrown :=
  { message := "Cannot read properties of undefined (reading \x27" ++ property ++ "\x27)" }

/-! ## The handlers -/

/-- The `catch` block of `registerUser`. -/
def registerCatch (calls : List Call) (err : Thrown) : Outcome :=
  { calls := calls
    res := (({} : Res).status 500).json
      { status := some "Error"
        message := some "User not registered, try again"
        error := some err.message } }

/-- The handler `registerUser`. -/
def registerUser (env : Env) (req : Req) : Outcome :=
  match req.body with
  | none => registerCatch [] bodyTypeError
  | some body =>
    let firstname := body.firstname
    let lastname := body.lastname
    let email := body.email
    let password := body.password
    if firstname.falsy || lastname.falsy || email.falsy || password.falsy then
      { res := (({} : Res).status 400).json
          { status := some "Error"
            message := some "All fields are required." } }
    else
      let user := env.newUser firstname lastname email password
      let user := { user with fullname := some (firstname.toStr ++ " " ++ lastname.toStr) }
      match env.save user with
      | .error err => registerCatch [.save user] err
      | .ok saved =>
        let cleared := { saved with password := none }
        match env.genAccessToken cleared with
        | .error err => registerCatch [.save user, .genAccessToken cleared] err
        | .ok accessToken =>
          match env.genRefreshToken cleared with
          | .error err =>
            registerCatch [.save user, .genAccessToken cleared, .genRefreshToken cleared] err
          | .ok refreshToken =>
            { calls := [.save user, .genAccessToken cleared, .genRefreshToken cleared]
              res := ((({} : Res).status 200).cookie "refreshToken" refreshToken
                  { httpOnly := true
                    secure := env.isProduction
                    sameSite := "strict"
                    maxAge := some (7 * 24 * 60 * 60 * 1000) }).json
                { status := some "Successful"
                  message := some "User registered successfully"
                  data := some
                    { user := some cleared
                      accessToken := some accessToken
                      refreshToken := some refreshToken } } }

/-- The `catch` block of `loginUser`. -/
def loginCatch (calls : List Call) (err : Thrown) : Outcome :=
  { calls := calls
    res := (({} : Res).status 500).json
      { status := some "Error"
        message := some "User not logged in"
        error := some err.message } }

/-- The handler `loginUser`. -/
def loginUser (env : Env) (req : Req) : Outcome :=
  match req.body with
  | none => loginCatch [] bodyTypeError
  | some body =>
    let email := body.email
    let password := body.password
    match env.findOne email with
    | .error err => loginCatch [.findOne email] err
    | .ok none =>
      { calls := [.findOne email]
        res := (({} : Res).status 404).json
          { status := some "Error"
            message := some "Email or password does not exist" } }
    | .ok (some user) =>
      match env.isValidatePassword user password with
      | .error err => loginCatch [.findOne email, .isValidatePassword user password] err
      | .ok false =>
        { calls := [.findOne email, .isValidatePassword user password]
          res := (({} : Res).status 404).json
            { status := some "Error"
              message := some "Invalid Email or password" } }
      | .ok true =>
        match env.genAccessToken user with
        | .error err =>
          loginCatch [.findOne email, .isValidatePassword user password, .genAccessToken user] err
        | .ok _accessToken =>
          match env.genRefreshToken user with
          | .error err =>
            loginCatch [.findOne email, .isValidatePassword user password, .genAccessToken user,
              .genRefreshToken user] err
          | .ok refreshToken =>
            { calls := [.findOne email, .isValidatePassword user password, .genAccessToken user,
                .genRefreshToken user]
              res := ((({} : Res).status 200).cookie "refreshToken" refreshToken
                  { httpOnly := true
                    sameSite := "strict"
                    maxAge := some (7 * 24 * 60 * 60 * 1000)
                    secure := env.isProduction }).json
                { status := some "Successful"
                  message := some "User logged in successfully"
                  data := some
                    { user := some user
                      refreshToken := some refreshToken } } }

/-- The handler `logOutUser`.  The cookie is read before the `try` block, so
a request without `req.cookies` makes the read throw out of the handler.  The
token handed to `jwt.verify` is the cookie value as read; it is truthy there. -/
def logOutUser (env : Env) (req : Req) : Outcome :=
  match req.cookies with
  | none => { escaped := some (propertyTypeError "refreshToken") }
  | some jar =>
    let token := jar.refreshToken
    if falsy token then
      { res := (({} : Res).status 401).json
          { status := some "Error"
            message := some "No token" } }
    else
      match env.jwtVerify token env.refreshTokenSecret with
      | .error error =>
        { calls := [.jwtVerify token env.refreshTokenSecret]
          res := (({} : Res).status 500).json
            { status := some "Error"
              message := some "User not logged out"
              error := some error.message } }
      | .ok .nothing | .ok .blank =>
        { calls := [.jwtVerify token env.refreshTokenSecret]
          res := (({} : Res).status 404).json
            { status := some "Error"
              message := some "Invalid token or token has expired" } }
      | .ok (.claims id) =>
        { calls := [.jwtVerify token env.refreshTokenSecret]
          res := ((({} : Res).status 200).clearCookie "refreshToken"
              { httpOnly := true
                secure := env.isProduction
                sameSite := "strict" }).json
            { status := some "Successful"
              message := some ("User " ++ toStr id ++ "  logged out successfully") } }

/-- The `catch` block of `refreshToken`. -/
def refreshCatch (calls : List Call) : Outcome :=
  { calls := calls
    res := (({} : Res).status 403).json
      { message := some "Invalid or expired refresh token" } }

/-- The property read `payload.id`. -/
def Decoded.id (payload : Decoded) : Except Thrown (Option String) :=
  match payload with
  | .nothing => .error (propertyTypeError "id")
  | .blank => .ok none
  | .claims id => .ok id

/-- The handler `refreshToken`. -/
def refreshToken (env : Env) (req : Req) : Outcome :=
  match req.cookies with
  | none => refreshCatch []
  | some jar =>
    let token := jar.refreshToken
    if falsy token then
      { res := (({} : Res).status 401).json
          { status := some "Error"
            message := some "Not authorized" } }
    else
      match env.jwtVerify token env.refreshTokenSecret with
      | .error _ => refreshCatch [.jwtVerify token env.refreshTokenSecret]
      | .ok payload =>
        match payload.id with
        | .error _ => refreshCatch [.jwtVerify token env.refreshTokenSecret]
        | .ok id =>
          match env.findById id with
          | .error _ => refreshCatch [.jwtVerify token env.refreshTokenSecret, .findById id]
          | .ok none =>
            { calls := [.jwtVerify token env.refreshTokenSecret, .findById id]
              res := (({} : Res).status 403).json
                { status := some "Error"
                  message := some "User not found" } }
          | .ok (some user) =>
            match env.genAccessToken user with
            | .error _ =>
              refreshCatch [.jwtVerify token env.refreshTokenSecret, .findById id,
                .genAccessToken user]
            | .ok accessToken =>
              match env.genRefreshToken user with
              | .error _ =>
                refreshCatch [.jwtVerify token env.refreshTokenSecret, .findById id,
                  .genAccessToken user, .genRefreshToken user]
              | .ok refreshToken =>
                let res := ({} : Res).cookie "refreshToken" refreshToken
                  { httpOnly := true
                    secure := env.isProduction
                    sameSite := "strict"
                    maxAge := some (7 * 24 * 60 * 60 * 1000) }
                { calls := [.jwtVerify token env.refreshTokenSecret, .findById id,
                    .genAccessToken user, .genRefreshToken user]
                  res := res.json { accessToken := some accessToken } }

/-- The result of the middleware `authorise`: its outcome and the request as
it is when the middleware is done. -/
structure GateOutcome where
  outcome : Outcome
  req : Req
  deriving DecidableEq, Repr

/-- The middleware `authorise`.  It has no `try` block. -/
def authorise (req : Req) : GateOutcome :=
  match req.user with
  | none => { req := req, outcome := { escaped := some (propertyTypeError "role") } }
  | some user =>
    if user.role != some "admin" then
      { req := req
        outcome :=
          { res := (({} : Res).status 401).json
              { status := some "failed"
                message := some "you are not authorised" } } }
    else
      { req := req, outcome := { nextCalls := 1 } }

/-! ## The responses of the handlers, by name

Each handler ends in one of a few responses; they are named here so that a
property of every run can be proved response by response. -/

/-- The 401 response of `refreshToken`. -/
def refreshNoToken : Outcome :=
  { res := (({} : Res).status 401).json
      { status := some "Error", message := some "Not authorized" } }

/-- The "User not found" response of `refreshToken`. -/
def refreshNoUser (calls : List Call) : Outcome :=
  { calls := calls
    res := (({} : Res).status 403).json
      { status := some "Error", message := some "User not found" } }

/-- The success response of `refreshToken`. -/
def refreshOk (env : Env) (calls : List Call) (accessToken refreshToken : String) : Outcome :=
  { calls := calls
    res := (({} : Res).cookie "refreshToken" refreshToken
        { httpOnly := true, secure := env.isProduction, sameSite := "strict",
          maxAge := some (7 * 24 * 60 * 60 * 1000) }).json
      { accessToken := some accessToken } }

/-- The 400 response of `registerUser`. -/
def registerInvalid : Outcome :=
  { res := (({} : Res).status 400).json
      { status := some "Error", message := some "All fields are required." } }

/-- The success response of `registerUser`. -/
def registerOk (env : Env) (calls : List Call) (user : User) (accessToken refreshToken : String) :
    Outcome :=
  { calls := calls
    res := ((({} : Res).status 200).cookie "refreshToken" refreshToken
        { httpOnly := true, secure := env.isProduction, sameSite := "strict",
          maxAge := some (7 * 24 * 60 * 60 * 1000) }).json
      { status := some "Successful"
        message := some "User registered successfully"
        data := some { user := some { user with password := none }
                       accessToken := some accessToken
                       refreshToken := some refreshToken } } }

/-- The 404 response of `loginUser` for an unknown email. -/
def loginNoUser (calls : List Call) : Outcome :=
  { calls := calls
    res := (({} : Res).status 404).json
      { status := some "Error", message := some "Email or password does not exist" } }

/-- The 404 response of `loginUser` for a failed password check. -/
def loginBadPassword (calls : List Call) : Outcome :=
  { calls := calls
    res := (({} : Res).status 404).json
      { status := some "Error", message := some "Invalid Email or password" } }

/-- The success response of `loginUser`. -/
def loginOk (env : Env) (calls : List Call) (user : User) (refreshToken : String) : Outcome :=
  { calls := calls
    res := ((({} : Res).status 200).cookie "refreshToken" refreshToken
        { httpOnly := true, sameSite := "strict", maxAge := some (7 * 24 * 60 * 60 * 1000),
          secure := env.isProduction }).json
      { status := some "Successful"
        message := some "User logged in successfully"
        data := some { user := some user, refreshToken := some refreshToken } } }

/-- The 401 response of `logOutUser`. -/
def logOutNoToken : Outcome :=
  { res := (({} : Res).status 401).json
      { status := some "Error", message := some "No token" } }

/-- The `catch` block of `logOutUser`. -/
def logOutCatch (calls : List Call) (error : Thrown) : Outcome :=
  { calls := calls
    res := (({} : Res).status 500).json
      { status := some "Error", message := some "User not logged out",
        error := some error.message } }

/-- The 404 response of `logOutUser`. -/
def logOutInvalid (calls : List Call) : Outcome :=
  { calls := calls
    res := (({} : Res).status 404).json
      { status := some "Error", message := some "Invalid token or token has expired" } }

/-- The success response of `logOutUser`. -/
def logOutOk (env : Env) (calls : List Call) (id : Option String) : Outcome :=
  { calls := calls
    res := ((({} : Res).status 200).clearCookie "refreshToken"
        { httpOnly := true, secure := env.isProduction, sameSite := "strict" }).json
      { status := some "Successful"
        message := some ("User " ++ toStr id ++ "  logged out successfully") } }

/-! ## Predicates on requests and responses -/

/-- The falsy values of a body field, spelled out: the key is absent, or the
value is `null`, `false`, `0` or the empty string. -/
abbrev JSVal.isFalsy (v : JSVal) : Prop :=
  v = .undefined ∨ v = .null ∨ v = .bool false ∨ v = .num 0 ∨ v = .str ""

/-- A body field that is missing (absent or `null`) or empty (the empty
string). -/
abbrev JSVal.isMissingOrEmpty (v : JSVal) : Prop :=
  v = .undefined ∨ v = .null ∨ v = .str ""

/-- The attributes every cookie of the handlers carries: the name refreshToken,
httpOnly, sameSite strict, and secure exactly in production. -/
abbrev sessionAttributes (env : Env) (c : Cookie) : Prop :=
  c.name = "refreshToken" ∧ c.httpOnly = true ∧ c.sameSite = "strict" ∧
  (c.secure = true ↔ env.nodeEnv = some "production")

/-- The shape `{status, message, error?}` of a failure body: a status and a
message, and neither data nor an access token. -/
abbrev Body.isFailureShape (b : Body) : Prop :=
  b.status ≠ none ∧ b.message ≠ none ∧ b.data = none ∧ b.accessToken = none

/-! ## Example collaborators

A small store with one registered user, used to evaluate the handlers on
concrete requests. -/

/-- The stored user `ada@example.com`, with her password hash. -/
def ada : User :=
  { id := some "u1", firstname := some "Ada", lastname := some "Lovelace",
    email := some "ada@example.com", password := some "$2b$10$hash",
    fullname := some "Ada Lovelace", role := some "user" }

/-- The cast of the example model to its string fields. -/
def castString (x : JSVal) : Option String :=
  match x with
  | .undefined => none
  | .null => none
  | .object _ => none
  | v => some v.toStr

/-- A working deployment: the model casts the four values to strings, saving
assigns the id `u2` and the role `user`, the store holds `ada`, her password is
`secret`, the refresh token `rt-u1` verifies for her, `rt-gone` verifies for a
user that is gone, and every other token is rejected as malformed. -/
def demoEnv : Env where
  newUser firstname lastname email password :=
    { firstname := castString firstname, lastname := castString lastname,
      email := castString email, password := castString password }
  save u := .ok { u with id := some "u2", role := some "user" }
  findOne email := .ok (if email = .str "ada@example.com" then some ada else none)
  findById id := .ok (if id = some "u1" then some ada else none)
  isValidatePassword _ password := .ok (password == .str "secret")
  genAccessToken u := .ok ("at-" ++ toStr u.id)
  genRefreshToken u := .ok ("rt2-" ++ toStr u.id)
  jwtVerify token _ :=
    if token = some "rt-u1" then .ok (.claims (some "u1"))
    else if token = some "rt-gone" then .ok (.claims (some "u9"))
    else .error { message := "jwt malformed" }
  nodeEnv := some "production"
  refreshTokenSecret := some "refresh-secret"

/-- A Register request with all four fields. -/
def registerReq : Req :=
  { body := some { firstname := .str "Grace", lastname := .str "Hopper",
                   email := .str "grace@example.com", password := .str "pw" } }

/-- A Register request that lacks the password. -/
def noPasswordReq : Req :=
  { body := some { firstname := .str "Grace", lastname := .str "Hopper",
                   email := .str "grace@example.com" } }

/-- A Register request whose password is the number 0. -/
def zeroPasswordReq : Req :=
  { body := some { firstname := .str "Grace", lastname := .str "Hopper",
                   email := .str "grace@example.com", password := .num 0 } }

/-- A Login request for `ada` with a wrong password. -/
def wrongPasswordReq : Req :=
  { body := some { email := .str "ada@example.com", password := .str "guess" } }

/-- A Login request for an email the store does not hold. -/
def unknownEmailReq : Req :=
  { body := some { email := .str "bob@example.com", password := .str "guess" } }

/-- A Login request for `ada` with her password. -/
def goodLoginReq : Req :=
  { body := some { email := .str "ada@example.com", password := .str "secret" } }

/-- A request whose refreshToken cookie does not verify. -/
def tamperedCookieReq : Req :=
  { cookies := some { refreshToken := some "tampered" } }

/-- A request whose refreshToken cookie verifies for a user that is gone. -/
def goneUserReq : Req :=
  { cookies := some { refreshToken := some "rt-gone" } }

/-- A request whose refreshToken cookie verifies for `ada`. -/
def goodCookieReq : Req :=
  { cookies := some { refreshToken := some "rt-u1" } }

/-- A request with parsed cookies, none of them refreshToken. -/
def noTokenReq : Req :=
  { cookies := some {} }

/-- A request without body, cookies and user. -/
def bareReq : Req := {}

/-! ## Lemmas on the primitives -/

theorem falsy_eq_true_iff (x : Option String) : falsy x = true ↔ x = none ∨ x = some "" := by
  cases x with
  | none => simp [falsy]
  | some s => simp [falsy]

theorem falsy_eq_false_iff (x : Option String) :
    falsy x = false ↔ x ≠ none ∧ x ≠ some "" := by
  cases x with
  | none => simp [falsy]
  | some s => simp [falsy]

theorem jsval_falsy_eq_true_iff (v : JSVal) : v.falsy = true ↔ v.isFalsy := by
  cases v <;> simp [JSVal.falsy, JSVal.isFalsy]

theorem jsval_falsy_eq_false_iff (v : JSVal) : v.falsy = false ↔ ¬ v.isFalsy := by
  rw [← jsval_falsy_eq_true_iff]
  simp

/-! ## Register -/

/-- C1: a Register request with all four fields present (truthy), whose save
succeeds and for whose saved user the two tokens are issued, is answered with
status 200, exactly one cookie named refreshToken (httpOnly, sameSite strict)
whose value is the issued refresh token, and a body whose data holds the user
with the password cleared, the access token and that same refresh token. -/
theorem registerUser_success (env : Env) (req : Req) (body : ReqBody) (saved : User)
    (accessToken refreshToken : String)
    (hbody : req.body = some body)
    (hfirst : ¬ body.firstname.isFalsy)
    (hlast : ¬ body.lastname.isFalsy)
    (hemail : ¬ body.email.isFalsy)
    (hpass : ¬ body.password.isFalsy)
    (hsave : env.save { env.newUser body.firstname body.lastname body.email body.password with
        fullname := some (body.firstname.toStr ++ " " ++ body.lastname.toStr) } = .ok saved)
    (haccess : env.genAccessToken { saved with password := none } = .ok accessToken)
    (hrefresh : env.genRefreshToken { saved with password := none } = .ok refreshToken) :
    (registerUser env req).res.statusCode = 200 ∧
    (registerUser env req).escaped = none ∧
    (∃ c, (registerUser env req).res.cookies = [c] ∧ c.name = "refreshToken" ∧
      c.httpOnly = true ∧ c.sameSite = "strict" ∧ c.value = some refreshToken) ∧
    (∃ b d u, (registerUser env req).res.body = some b ∧ b.data = some d ∧
      d.user = some u ∧ u = { saved with password := none } ∧ u.password = none ∧
      d.accessToken = some accessToken ∧ d.refreshToken = some refreshToken) := by
  have h1 := (jsval_falsy_eq_false_iff _).2 hfirst
  have h2 := (jsval_falsy_eq_false_iff _).2 hlast
  have h3 := (jsval_falsy_eq_false_iff _).2 hemail
  have h4 := (jsval_falsy_eq_false_iff _).2 hpass
  simp [registerUser, hbody, h1, h2, h3, h4, hsave, haccess, hrefresh, Res.status, Res.cookie,
    Res.json]

/-- Witness of C1 on the example deployment. -/
theorem registerUser_success_witness :
    (registerUser demoEnv registerReq).res.statusCode = 200 ∧
    (registerUser demoEnv registerReq).escaped = none ∧
    (∃ c, (registerUser demoEnv registerReq).res.cookies = [c] ∧ c.name = "refreshToken" ∧
      c.httpOnly = true ∧ c.sameSite = "strict" ∧ c.value = some "rt2-u2") ∧
    (∃ b d u, (registerUser demoEnv registerReq).res.body = some b ∧ b.data = some d ∧
      d.user = some u ∧
      u = { id := some "u2", firstname := some "Grace", lastname := some "Hopper",
            email := some "grace@example.com", password := none,
            fullname := some "Grace Hopper", role := some "user" } ∧
      u.password = none ∧
      d.accessToken = some "at-u2" ∧ d.refreshToken = some "rt2-u2") :=
  registerUser_success demoEnv registerReq
    { firstname := .str "Grace", lastname := .str "Hopper",
      email := .str "grace@example.com", password := .str "pw" }
    { id := some "u2", firstname := some "Grace", lastname := some "Hopper",
      email := some "grace@example.com", password := some "pw",
      fullname := some "Grace Hopper", role := some "user" }
    "at-u2" "rt2-u2" rfl (by decide) (by decide) (by decide) (by decide) rfl rfl rfl

/-- The status of `registerUser` is 400 exactly when the request has a body in
which one of the four fields is falsy for the test `!x`. -/
theorem registerUser_400_iff_falsy (env : Env) (req : Req) :
    (registerUser env req).res.statusCode = 400 ↔
      ∃ body, req.body = some body ∧
        (body.firstname.falsy || body.lastname.falsy || body.email.falsy ||
          body.password.falsy) = true := by
  cases hb : req.body with
  | none => simp [registerUser, hb, registerCatch, Res.status, Res.json]
  | some body =>
    cases hf : (body.firstname.falsy || body.lastname.falsy || body.email.falsy ||
        body.password.falsy) with
    | true =>
      have hs : (registerUser env req).res.statusCode = 400 := by
        simp [registerUser, hb, hf, Res.status, Res.json]
      exact ⟨fun _ => ⟨body, rfl, hf⟩, fun _ => hs⟩
    | false =>
      have hs : (registerUser env req).res.statusCode ≠ 400 := by
        simp only [registerUser, hb, hf]
        cases env.save _ with
        | error e => simp [registerCatch, Res.status, Res.json]
        | ok saved =>
          simp only []
          cases env.genAccessToken _ with
          | error e => simp [registerCatch, Res.status, Res.json]
          | ok a =>
            simp only []
            cases env.genRefreshToken _ with
            | error e => simp [registerCatch, Res.status, Res.json]
            | ok r => simp [Res.status, Res.json, Res.cookie]
      refine ⟨fun h => absurd h hs, ?_⟩
      rintro ⟨b, hb2, h⟩
      cases hb2
      rw [hf] at h
      exact absurd h (by decide)

/-- C2, counterexample: a Register request whose four fields are all present
and none of them empty, the password being the number 0, is answered with 400;
and a Register request without a body, in which all four fields are missing,
is answered with 500 and not with 400. -/
theorem registerUser_400_not_iff_missing :
    (zeroPasswordReq.body = some
        { firstname := .str "Grace", lastname := .str "Hopper",
          email := .str "grace@example.com", password := .num 0 } ∧
      ¬ (JSVal.str "Grace").isMissingOrEmpty ∧ ¬ (JSVal.str "Hopper").isMissingOrEmpty ∧
      ¬ (JSVal.str "grace@example.com").isMissingOrEmpty ∧ ¬ (JSVal.num 0).isMissingOrEmpty ∧
      (registerUser demoEnv zeroPasswordReq).res.statusCode = 400) ∧
    (bareReq.body = none ∧ (registerUser demoEnv bareReq).res.statusCode = 500) := by
  decide

/-- C2, amended: a Register request is answered with status 400 exactly when
the request has a body in which at least one of firstname, lastname, email,
password is falsy, that is absent, `null`, `false`, `0` or the empty string; in
that case no collaborator is called (no user is saved, no token issued), no
cookie is written and no exception escapes; and a Register request
without a body is answered with status 500, no collaborator called and no
cookie written. -/
theorem registerUser_400_iff (env : Env) (req : Req) :
    ((registerUser env req).res.statusCode = 400 ↔
      ∃ body, req.body = some body ∧
        (body.firstname.isFalsy ∨ body.lastname.isFalsy ∨ body.email.isFalsy ∨
          body.password.isFalsy)) ∧
    ((registerUser env req).res.statusCode = 400 →
      (registerUser env req).calls = [] ∧ (registerUser env req).res.cookies = [] ∧
      (registerUser env req).escaped = none) ∧
    (req.body = none →
      (registerUser env req).res.statusCode = 500 ∧ (registerUser env req).calls = [] ∧
      (registerUser env req).res.cookies = [] ∧ (registerUser env req).escaped = none) := by
  refine ⟨?_, ?_, ?_⟩
  · rw [registerUser_400_iff_falsy]
    simp only [Bool.or_eq_true, jsval_falsy_eq_true_iff, or_assoc]
  · intro h
    obtain ⟨body, hb, hf⟩ := (registerUser_400_iff_falsy env req).1 h
    simp [registerUser, hb, hf, Res.status, Res.json]
  · intro hb
    simp [registerUser, hb, registerCatch, Res.status, Res.json]

/-- Witness of C2 as amended: a request without a password is answered with
400 and nothing is called; a request without a body is answered with 500. -/
theorem registerUser_400_iff_witness :
    ((registerUser demoEnv noPasswordReq).res.statusCode = 400 ∧
      (registerUser demoEnv noPasswordReq).calls = [] ∧
      (registerUser demoEnv noPasswordReq).res.cookies = [] ∧
      (registerUser demoEnv noPasswordReq).escaped = none) ∧
    (bareReq.body = none ∧
      (registerUser demoEnv bareReq).res.statusCode = 500 ∧
      (registerUser demoEnv bareReq).calls = [] ∧
      (registerUser demoEnv bareReq).res.cookies = [] ∧
      (registerUser demoEnv bareReq).escaped = none) :=
  ⟨⟨by decide, (registerUser_400_iff demoEnv noPasswordReq).2.1 (by decide)⟩,
   rfl, (registerUser_400_iff demoEnv bareReq).2.2 rfl⟩

/-! ## Login -/

/-- The response of `loginUser` when the store holds no user with the email. -/
theorem loginUser_unknown_email (env : Env) (req : Req) (body : ReqBody)
    (hbody : req.body = some body) (hfind : env.findOne body.email = .ok none) :
    (loginUser env req).res =
      { statusCode := 404
        body := some { status := some "Error"
                       message := some "Email or password does not exist" } } := by
  simp [loginUser, hbody, hfind, Res.status, Res.json]

/-- The response of `loginUser` when the user is found and the password check
answers false. -/
theorem loginUser_wrong_password (env : Env) (req : Req) (body : ReqBody) (user : User)
    (hbody : req.body = some body) (hfind : env.findOne body.email = .ok (some user))
    (hcheck : env.isValidatePassword user body.password = .ok false) :
    (loginUser env req).res =
      { statusCode := 404
        body := some { status := some "Error"
                       message := some "Invalid Email or password" } } := by
  simp [loginUser, hbody, hfind, hcheck, Res.status, Res.json]

/-- The response of a successful `loginUser`: the user in the body is the
document the store returned, as it is. -/
theorem loginUser_success (env : Env) (req : Req) (body : ReqBody) (user : User)
    (accessToken refreshToken : String)
    (hbody : req.body = some body) (hfind : env.findOne body.email = .ok (some user))
    (hcheck : env.isValidatePassword user body.password = .ok true)
    (haccess : env.genAccessToken user = .ok accessToken)
    (hrefresh : env.genRefreshToken user = .ok refreshToken) :
    (loginUser env req).res =
      { statusCode := 200
        cookies := [{ name := "refreshToken", value := some refreshToken, httpOnly := true,
                      secure := env.isProduction, sameSite := "strict",
                      maxAge := some (7 * 24 * 60 * 60 * 1000) }]
        body := some { status := some "Successful"
                       message := some "User logged in successfully"
                       data := some { user := some user, refreshToken := some refreshToken } } } := by
  simp [loginUser, hbody, hfind, hcheck, haccess, hrefresh, Res.status, Res.json, Res.cookie]

/-- C3, the code at the failing input: for an unknown email and for a known
email with a wrong password `loginUser` answers with the same status 404 but
with two different bodies, whose messages differ. -/
theorem loginUser_failures_differ :
    (loginUser demoEnv unknownEmailReq).res.statusCode = 404 ∧
    (loginUser demoEnv wrongPasswordReq).res.statusCode = 404 ∧
    (loginUser demoEnv unknownEmailReq).res.body =
      some { status := some "Error", message := some "Email or password does not exist" } ∧
    (loginUser demoEnv wrongPasswordReq).res.body =
      some { status := some "Error", message := some "Invalid Email or password" } ∧
    (loginUser demoEnv unknownEmailReq).res.body ≠
      (loginUser demoEnv wrongPasswordReq).res.body := by
  have h1 := loginUser_unknown_email demoEnv unknownEmailReq _ rfl rfl
  have h2 := loginUser_wrong_password demoEnv wrongPasswordReq _ ada rfl rfl rfl
  rw [h1, h2]
  refine ⟨rfl, rfl, rfl, rfl, ?_⟩
  decide

/-- C4, the code at the failing input: after a successful Login the user in
the response body is the stored document with its password hash still set. -/
theorem loginUser_keeps_password :
    (loginUser demoEnv goodLoginReq).res.statusCode = 200 ∧
    ∃ b d u, (loginUser demoEnv goodLoginReq).res.body = some b ∧ b.data = some d ∧
      d.user = some u ∧ u.password = some "$2b$10$hash" := by
  have h := loginUser_success demoEnv goodLoginReq _ ada "at-u1" "rt2-u1" rfl rfl rfl rfl rfl
  rw [h]
  exact ⟨rfl, _, _, _, rfl, rfl, rfl, rfl⟩

/-! ## Logout -/

/-- The handler `logOutUser` answers 401 when the parsed cookies hold no
refreshToken (or an empty one). -/
theorem logOutUser_no_token (env : Env) (req : Req) (jar : CookieJar)
    (hjar : req.cookies = some jar)
    (htoken : jar.refreshToken = none ∨ jar.refreshToken = some "") :
    (logOutUser env req).res.statusCode = 401 ∧ (logOutUser env req).calls = [] := by
  have h := (falsy_eq_true_iff _).2 htoken
  simp [logOutUser, hjar, h, Res.status, Res.json]

/-- The handler `logOutUser` answers 500 when `jwt.verify` throws. -/
theorem logOutUser_verify_throws (env : Env) (req : Req) (jar : CookieJar) (err : Thrown)
    (hjar : req.cookies = some jar)
    (htoken : jar.refreshToken ≠ none ∧ jar.refreshToken ≠ some "")
    (hverify : env.jwtVerify jar.refreshToken env.refreshTokenSecret = .error err) :
    (logOutUser env req).res =
      { statusCode := 500
        body := some { status := some "Error"
                       message := some "User not logged out"
                       error := some err.message } } := by
  have h := (falsy_eq_false_iff _).2 htoken
  simp [logOutUser, hjar, h, hverify, Res.status, Res.json]

/-- C5, the code at the failing input: a Logout whose refreshToken cookie
fails verification (`jwt.verify` throws "jwt malformed") is answered with
status 500, not 404; a Logout without the cookie is answered with 401. -/
theorem logOutUser_invalid_token_500 :
    (logOutUser demoEnv tamperedCookieReq).res.statusCode = 500 ∧
    (logOutUser demoEnv tamperedCookieReq).res.body =
      some { status := some "Error", message := some "User not logged out",
             error := some "jwt malformed" } ∧
    (logOutUser demoEnv noTokenReq).res.statusCode = 401 := by
  have h := logOutUser_verify_throws demoEnv tamperedCookieReq _ { message := "jwt malformed" }
    rfl (by decide) rfl
  rw [h]
  exact ⟨rfl, rfl, (logOutUser_no_token demoEnv noTokenReq _ rfl (Or.inl rfl)).1⟩

/-! ## Case principles

To prove a property of every run of a handler it is enough to prove it of each
of its named responses. -/

theorem refreshToken_cases (env : Env) (req : Req) (P : Outcome → Prop)
    (hnone : P refreshNoToken)
    (hcatch : ∀ calls, P (refreshCatch calls))
    (hnouser : ∀ calls, P (refreshNoUser calls))
    (hok : ∀ calls a r, P (refreshOk env calls a r)) :
    P (refreshToken env req) := by
  cases hc : req.cookies with
  | none => simpa [refreshToken, hc] using hcatch []
  | some jar =>
    cases ht : falsy jar.refreshToken with
    | true => simpa [refreshToken, hc, ht, refreshNoToken] using hnone
    | false =>
      cases hv : env.jwtVerify jar.refreshToken env.refreshTokenSecret with
      | error e => simpa [refreshToken, hc, ht, hv] using hcatch _
      | ok payload =>
        cases hid : payload.id with
        | error e => simpa [refreshToken, hc, ht, hv, hid] using hcatch _
        | ok id =>
          cases hf : env.findById id with
          | error e => simpa [refreshToken, hc, ht, hv, hid, hf] using hcatch _
          | ok found =>
            cases found with
            | none => simpa [refreshToken, hc, ht, hv, hid, hf, refreshNoUser] using hnouser _
            | some user =>
              cases ha : env.genAccessToken user with
              | error e => simpa [refreshToken, hc, ht, hv, hid, hf, ha] using hcatch _
              | ok a =>
                cases hr : env.genRefreshToken user with
                | error e => simpa [refreshToken, hc, ht, hv, hid, hf, ha, hr] using hcatch _
                | ok r =>
                  simpa [refreshToken, hc, ht, hv, hid, hf, ha, hr, refreshOk] using hok _ a r

theorem registerUser_cases (env : Env) (req : Req) (P : Outcome → Prop)
    (hinvalid : P registerInvalid)
    (hcatch : ∀ calls err, P (registerCatch calls err))
    (hok : ∀ calls user a r, P (registerOk env calls user a r)) :
    P (registerUser env req) := by
  cases hb : req.body with
  | none => simpa [registerUser, hb] using hcatch [] _
  | some body =>
    cases hf : (body.firstname.falsy || body.lastname.falsy || body.email.falsy ||
        body.password.falsy) with
    | true => simpa [registerUser, hb, hf, registerInvalid] using hinvalid
    | false =>
      simp only [registerUser, hb, hf]
      cases env.save _ with
      | error e => exact hcatch _ _
      | ok saved =>
        simp only []
        cases env.genAccessToken _ with
        | error e => exact hcatch _ _
        | ok a =>
          simp only []
          cases env.genRefreshToken _ with
          | error e => exact hcatch _ _
          | ok r => exact hok _ saved a r

theorem loginUser_cases (env : Env) (req : Req) (P : Outcome → Prop)
    (hnouser : ∀ calls, P (loginNoUser calls))
    (hbad : ∀ calls, P (loginBadPassword calls))
    (hcatch : ∀ calls err, P (loginCatch calls err))
    (hok : ∀ calls user r, P (loginOk env calls user r)) :
    P (loginUser env req) := by
  cases hb : req.body with
  | none => simpa [loginUser, hb] using hcatch [] _
  | some body =>
    cases hf : env.findOne body.email with
    | error e => simpa [loginUser, hb, hf] using hcatch _ e
    | ok found =>
      cases found with
      | none => simpa [loginUser, hb, hf, loginNoUser] using hnouser _
      | some user =>
        cases hp : env.isValidatePassword user body.password with
        | error e => simpa [loginUser, hb, hf, hp] using hcatch _ e
        | ok check =>
          cases check with
          | false => simpa [loginUser, hb, hf, hp, loginBadPassword] using hbad _
          | true =>
            cases ha : env.genAccessToken user with
            | error e => simpa [loginUser, hb, hf, hp, ha] using hcatch _ e
            | ok a =>
              cases hr : env.genRefreshToken user with
              | error e => simpa [loginUser, hb, hf, hp, ha, hr] using hcatch _ e
              | ok r => simpa [loginUser, hb, hf, hp, ha, hr, loginOk] using hok _ user r

theorem logOutUser_cases (env : Env) (req : Req) (jar : CookieJar) (P : Outcome → Prop)
    (hjar : req.cookies = some jar)
    (hnone : P logOutNoToken)
    (hcatch : ∀ calls err, P (logOutCatch calls err))
    (hinvalid : ∀ calls, P (logOutInvalid calls))
    (hok : ∀ calls id, P (logOutOk env calls id)) :
    P (logOutUser env req) := by
  cases ht : falsy jar.refreshToken with
  | true => simpa [logOutUser, hjar, ht, logOutNoToken] using hnone
  | false =>
    cases hv : env.jwtVerify jar.refreshToken env.refreshTokenSecret with
    | error e => simpa [logOutUser, hjar, ht, hv, logOutCatch] using hcatch _ e
    | ok payload =>
      cases payload with
      | nothing => simpa [logOutUser, hjar, ht, hv, logOutInvalid] using hinvalid _
      | blank => simpa [logOutUser, hjar, ht, hv, logOutInvalid] using hinvalid _
      | claims id => simpa [logOutUser, hjar, ht, hv, logOutOk] using hok _ id

/-! ## Refresh -/

/-- C6: `refreshToken` answers 401 when the parsed cookies hold no refreshToken,
403 when `jwt.verify` throws on the cookie, 403 when the id of the claims
resolves to no user and 403 when the store lookup fails; every run ends with
status 200, 401 or 403 (never 500) and without an escaping exception, and a run
that does not end with 200 writes no cookie. -/
theorem refreshToken_failures (env : Env) (req : Req) :
    (∀ jar, req.cookies = some jar →
      (jar.refreshToken = none ∨ jar.refreshToken = some "") →
      (refreshToken env req).res.statusCode = 401) ∧
    (∀ jar err, req.cookies = some jar →
      (jar.refreshToken ≠ none ∧ jar.refreshToken ≠ some "") →
      env.jwtVerify jar.refreshToken env.refreshTokenSecret = .error err →
      (refreshToken env req).res.statusCode = 403) ∧
    (∀ jar id, req.cookies = some jar →
      (jar.refreshToken ≠ none ∧ jar.refreshToken ≠ some "") →
      env.jwtVerify jar.refreshToken env.refreshTokenSecret = .ok (.claims id) →
      env.findById id = .ok none →
      (refreshToken env req).res.statusCode = 403) ∧
    (∀ jar id err, req.cookies = some jar →
      (jar.refreshToken ≠ none ∧ jar.refreshToken ≠ some "") →
      env.jwtVerify jar.refreshToken env.refreshTokenSecret = .ok (.claims id) →
      env.findById id = .error err →
      (refreshToken env req).res.statusCode = 403) ∧
    ((refreshToken env req).res.statusCode = 200 ∨ (refreshToken env req).res.statusCode = 401 ∨
      (refreshToken env req).res.statusCode = 403) ∧
    (refreshToken env req).res.statusCode ≠ 500 ∧
    (refreshToken env req).escaped = none ∧
    ((refreshToken env req).res.statusCode ≠ 200 → (refreshToken env req).res.cookies = []) := by
  refine ⟨?_, ?_, ?_, ?_, ?_⟩
  · intro jar hjar htoken
    have h := (falsy_eq_true_iff _).2 htoken
    simp [refreshToken, hjar, h, Res.status, Res.json]
  · intro jar err hjar htoken hverify
    have h := (falsy_eq_false_iff _).2 htoken
    simp [refreshToken, hjar, h, hverify, refreshCatch, Res.status, Res.json]
  · intro jar id hjar htoken hverify hfind
    have h := (falsy_eq_false_iff _).2 htoken
    simp [refreshToken, hjar, h, hverify, Decoded.id, hfind, Res.status, Res.json]
  · intro jar id err hjar htoken hverify hfind
    have h := (falsy_eq_false_iff _).2 htoken
    simp [refreshToken, hjar, h, hverify, Decoded.id, hfind, refreshCatch, Res.status, Res.json]
  · apply refreshToken_cases env req
      (fun out => (out.res.statusCode = 200 ∨ out.res.statusCode = 401 ∨ out.res.statusCode = 403) ∧
        out.res.statusCode ≠ 500 ∧ out.escaped = none ∧
        (out.res.statusCode ≠ 200 → out.res.cookies = []))
    · simp [refreshNoToken, Res.status, Res.json]
    · intro calls
      simp [refreshCatch, Res.status, Res.json]
    · intro calls
      simp [refreshNoUser, Res.status, Res.json]
    · intro calls a r
      simp [refreshOk, Res.cookie, Res.json]

/-- Witness of C6: without a refreshToken cookie the example deployment answers
401, with a tampered one 403, with one for a user that is gone 403, each time
without a cookie. -/
theorem refreshToken_failures_witness :
    (refreshToken demoEnv noTokenReq).res.statusCode = 401 ∧
    (refreshToken demoEnv tamperedCookieReq).res.statusCode = 403 ∧
    (refreshToken demoEnv goneUserReq).res.statusCode = 403 ∧
    (refreshToken demoEnv tamperedCookieReq).res.cookies = [] :=
  ⟨(refreshToken_failures demoEnv noTokenReq).1 _ rfl (Or.inl rfl),
   (refreshToken_failures demoEnv tamperedCookieReq).2.1 _ { message := "jwt malformed" } rfl
     (by decide) rfl,
   (refreshToken_failures demoEnv goneUserReq).2.2.1 _ (some "u9") rfl (by decide) rfl rfl,
   (refreshToken_failures demoEnv tamperedCookieReq).2.2.2.2.2.2.2 (by decide)⟩

/-- C7: when the refreshToken cookie verifies, the user of the claims is found
and the two tokens are issued for that user, `refreshToken` calls both
generators on the user found, answers with status 200, writes one refreshToken
cookie whose value is the newly issued refresh token (it is the presented token
only if the generator returned that very string), and sends a body whose only
key is accessToken, holding the new access token. -/
theorem refreshToken_success (env : Env) (req : Req) (jar : CookieJar) (id : Option String)
    (user : User) (accessToken newToken : String)
    (hjar : req.cookies = some jar)
    (htoken : jar.refreshToken ≠ none ∧ jar.refreshToken ≠ some "")
    (hverify : env.jwtVerify jar.refreshToken env.refreshTokenSecret = .ok (.claims id))
    (hfind : env.findById id = .ok (some user))
    (haccess : env.genAccessToken user = .ok accessToken)
    (hrefresh : env.genRefreshToken user = .ok newToken) :
    (refreshToken env req).calls =
      [.jwtVerify jar.refreshToken env.refreshTokenSecret, .findById id,
       .genAccessToken user, .genRefreshToken user] ∧
    (refreshToken env req).res.statusCode = 200 ∧
    (refreshToken env req).escaped = none ∧
    (∃ c, (refreshToken env req).res.cookies = [c] ∧ c.name = "refreshToken" ∧
      c.value = some newToken ∧ (c.value = jar.refreshToken → jar.refreshToken = some newToken)) ∧
    (refreshToken env req).res.body =
      some { status := none, message := none, error := none, data := none,
             accessToken := some accessToken } := by
  have h := (falsy_eq_false_iff _).2 htoken
  simp [refreshToken, hjar, h, hverify, Decoded.id, hfind, haccess, hrefresh, Res.cookie,
    Res.json]
  intro h2
  exact h2.symm

/-- Witness of C7 on the example deployment: the cookie `rt-u1` is replaced by
`rt2-u1` and the body holds the access token only. -/
theorem refreshToken_success_witness :
    (refreshToken demoEnv goodCookieReq).calls =
      [.jwtVerify (some "rt-u1") (some "refresh-secret"), .findById (some "u1"),
       .genAccessToken ada, .genRefreshToken ada] ∧
    (refreshToken demoEnv goodCookieReq).res.statusCode = 200 ∧
    (refreshToken demoEnv goodCookieReq).escaped = none ∧
    (∃ c, (refreshToken demoEnv goodCookieReq).res.cookies = [c] ∧ c.name = "refreshToken" ∧
      c.value = some "rt2-u1" ∧ (c.value = some "rt-u1" → some "rt-u1" = some "rt2-u1")) ∧
    (refreshToken demoEnv goodCookieReq).res.body =
      some { status := none, message := none, error := none, data := none,
             accessToken := some "at-u1" } :=
  refreshToken_success demoEnv goodCookieReq { refreshToken := some "rt-u1" } (some "u1") ada
    "at-u1" "rt2-u1" rfl (by decide) rfl rfl rfl rfl

/-! ## Authorization gate -/

/-- C8: for a request with an attached caller, `authorise` answers 401 and does
not call next when the role is not "admin"; when the role is "admin" it calls
next exactly once and writes nothing on the response; either way the request is
left as it was and no exception leaves the middleware. -/
theorem authorise_gate (req : Req) (caller : Caller) (huser : req.user = some caller) :
    (caller.role ≠ some "admin" →
      (authorise req).outcome.res.statusCode = 401 ∧ (authorise req).outcome.nextCalls = 0 ∧
      (authorise req).outcome.res.body =
        some { status := some "failed", message := some "you are not authorised" }) ∧
    (caller.role = some "admin" →
      (authorise req).outcome.nextCalls = 1 ∧ (authorise req).outcome.res = {} ∧
      (authorise req).outcome.res.body = none) ∧
    (authorise req).req = req ∧
    (authorise req).outcome.escaped = none ∧
    (authorise req).outcome.calls = [] := by
  by_cases hrole : caller.role = some "admin"
  · simp [authorise, huser, hrole]
  · simp [authorise, huser, hrole, Res.status, Res.json]

/-- Witness of C8: an admin passes, a plain user is rejected. -/
theorem authorise_gate_witness :
    ((authorise { user := some { id := some "u7", role := some "admin" } }).outcome.nextCalls = 1 ∧
      (authorise { user := some { id := some "u7", role := some "admin" } }).outcome.res = {} ∧
      (authorise { user := some { id := some "u7", role := some "admin" } }).outcome.res.body
        = none) ∧
    ((authorise { user := some { id := some "u1", role := some "user" } }).outcome.res.statusCode
        = 401 ∧
      (authorise { user := some { id := some "u1", role := some "user" } }).outcome.nextCalls = 0 ∧
      (authorise { user := some { id := some "u1", role := some "user" } }).outcome.res.body =
        some { status := some "failed", message := some "you are not authorised" }) :=
  ⟨(authorise_gate _ { id := some "u7", role := some "admin" } rfl).2.1 rfl,
   (authorise_gate _ { id := some "u1", role := some "user" } rfl).1 (by decide)⟩

/-! ## Cookie contract -/

theorem isProduction_iff (env : Env) : env.isProduction = true ↔ env.nodeEnv = some "production" := by
  simp [Env.isProduction]

theorem isProduction_eq_decide (env : Env) :
    env.isProduction = decide (env.nodeEnv = some "production") := by
  unfold Env.isProduction
  by_cases h : env.nodeEnv = some "production" <;> simp [h]

/-- C9: on a successful Register, Login and Refresh the handler writes exactly
one cookie: it is named refreshToken, carries the refresh token just issued, is
httpOnly and sameSite strict, is secure exactly when NODE_ENV is production and
has the lifetime 604800 seconds (604800 * 1000 ms); on a successful Logout the
handler writes exactly one cookie with the same name and the same httpOnly,
sameSite and secure attributes, no value and no lifetime.  Beyond the successful
runs: every cookie written by `registerUser`, `loginUser` and `refreshToken` on
any request has these attributes, a value and the lifetime 7*24*60*60*1000 ms;
every cookie written by `logOutUser` has them with no value and no lifetime;
`authorise` writes none; and each of the four handlers writes exactly one
cookie whenever it answers (sends a body) with status 200. -/
theorem cookie_contract (env : Env) (req : Req) :
    (∀ body saved accessToken refreshToken, req.body = some body →
      ¬ body.firstname.isFalsy → ¬ body.lastname.isFalsy → ¬ body.email.isFalsy →
      ¬ body.password.isFalsy →
      env.save { env.newUser body.firstname body.lastname body.email body.password with
        fullname := some (body.firstname.toStr ++ " " ++ body.lastname.toStr) } = .ok saved →
      env.genAccessToken { saved with password := none } = .ok accessToken →
      env.genRefreshToken { saved with password := none } = .ok refreshToken →
      (registerUser env req).res.cookies =
        [{ name := "refreshToken", value := some refreshToken, httpOnly := true,
           secure := decide (env.nodeEnv = some "production"), sameSite := "strict",
           maxAge := some (604800 * 1000) }]) ∧
    (∀ body user accessToken refreshToken, req.body = some body →
      env.findOne body.email = .ok (some user) →
      env.isValidatePassword user body.password = .ok true →
      env.genAccessToken user = .ok accessToken →
      env.genRefreshToken user = .ok refreshToken →
      (loginUser env req).res.cookies =
        [{ name := "refreshToken", value := some refreshToken, httpOnly := true,
           secure := decide (env.nodeEnv = some "production"), sameSite := "strict",
           maxAge := some (604800 * 1000) }]) ∧
    (∀ jar id user accessToken newToken, req.cookies = some jar →
      (jar.refreshToken ≠ none ∧ jar.refreshToken ≠ some "") →
      env.jwtVerify jar.refreshToken env.refreshTokenSecret = .ok (.claims id) →
      env.findById id = .ok (some user) →
      env.genAccessToken user = .ok accessToken →
      env.genRefreshToken user = .ok newToken →
      (refreshToken env req).res.cookies =
        [{ name := "refreshToken", value := some newToken, httpOnly := true,
           secure := decide (env.nodeEnv = some "production"), sameSite := "strict",
           maxAge := some (604800 * 1000) }]) ∧
    (∀ jar id, req.cookies = some jar →
      (jar.refreshToken ≠ none ∧ jar.refreshToken ≠ some "") →
      env.jwtVerify jar.refreshToken env.refreshTokenSecret = .ok (.claims id) →
      (logOutUser env req).res.cookies =
        [{ name := "refreshToken", value := none, httpOnly := true,
           secure := decide (env.nodeEnv = some "production"), sameSite := "strict",
           maxAge := none }]) ∧
    (∀ c, c ∈ (registerUser env req).res.cookies ∨ c ∈ (loginUser env req).res.cookies ∨
        c ∈ (refreshToken env req).res.cookies →
      sessionAttributes env c ∧ c.value ≠ none ∧
      c.maxAge = some (7 * 24 * 60 * 60 * 1000) ∧ c.maxAge = some (604800 * 1000)) ∧
    (∀ c, c ∈ (logOutUser env req).res.cookies →
      sessionAttributes env c ∧ c.value = none ∧ c.maxAge = none) ∧
    (authorise req).outcome.res.cookies = [] ∧
    ((registerUser env req).res.body ≠ none ∧ (registerUser env req).res.statusCode = 200 →
      (registerUser env req).res.cookies.length = 1) ∧
    ((loginUser env req).res.body ≠ none ∧ (loginUser env req).res.statusCode = 200 →
      (loginUser env req).res.cookies.length = 1) ∧
    ((refreshToken env req).res.body ≠ none ∧ (refreshToken env req).res.statusCode = 200 →
      (refreshToken env req).res.cookies.length = 1) ∧
    ((logOutUser env req).res.body ≠ none ∧ (logOutUser env req).res.statusCode = 200 →
      (logOutUser env req).res.cookies.length = 1) := by
  have hreg := registerUser_cases env req
    (fun out => (∀ c, c ∈ out.res.cookies → sessionAttributes env c ∧ c.value ≠ none ∧
        c.maxAge = some (7 * 24 * 60 * 60 * 1000) ∧ c.maxAge = some (604800 * 1000)) ∧
      (out.res.body ≠ none ∧ out.res.statusCode = 200 → out.res.cookies.length = 1))
    (by simp [registerInvalid, Res.status, Res.json])
    (by intro calls err; simp [registerCatch, Res.status, Res.json])
    (by intro calls user a r
        simp [registerOk, Res.status, Res.json, Res.cookie, sessionAttributes, isProduction_iff])
  have hlog := loginUser_cases env req
    (fun out => (∀ c, c ∈ out.res.cookies → sessionAttributes env c ∧ c.value ≠ none ∧
        c.maxAge = some (7 * 24 * 60 * 60 * 1000) ∧ c.maxAge = some (604800 * 1000)) ∧
      (out.res.body ≠ none ∧ out.res.statusCode = 200 → out.res.cookies.length = 1))
    (by intro calls; simp [loginNoUser, Res.status, Res.json])
    (by intro calls; simp [loginBadPassword, Res.status, Res.json])
    (by intro calls err; simp [loginCatch, Res.status, Res.json])
    (by intro calls user r
        simp [loginOk, Res.status, Res.json, Res.cookie, sessionAttributes, isProduction_iff])
  have href := refreshToken_cases env req
    (fun out => (∀ c, c ∈ out.res.cookies → sessionAttributes env c ∧ c.value ≠ none ∧
        c.maxAge = some (7 * 24 * 60 * 60 * 1000) ∧ c.maxAge = some (604800 * 1000)) ∧
      (out.res.body ≠ none ∧ out.res.statusCode = 200 → out.res.cookies.length = 1))
    (by simp [refreshNoToken, Res.status, Res.json])
    (by intro calls; simp [refreshCatch, Res.status, Res.json])
    (by intro calls; simp [refreshNoUser, Res.status, Res.json])
    (by intro calls a r
        simp [refreshOk, Res.json, Res.cookie, sessionAttributes, isProduction_iff])
  have hout : (∀ c, c ∈ (logOutUser env req).res.cookies →
        sessionAttributes env c ∧ c.value = none ∧ c.maxAge = none) ∧
      ((logOutUser env req).res.body ≠ none ∧ (logOutUser env req).res.statusCode = 200 →
        (logOutUser env req).res.cookies.length = 1) := by
    cases hc : req.cookies with
    | none => simp [logOutUser, hc]
    | some jar =>
      exact logOutUser_cases env req jar
        (fun out => (∀ c, c ∈ out.res.cookies →
            sessionAttributes env c ∧ c.value = none ∧ c.maxAge = none) ∧
          (out.res.body ≠ none ∧ out.res.statusCode = 200 → out.res.cookies.length = 1))
        hc
        (by simp [logOutNoToken, Res.status, Res.json])
        (by intro calls err; simp [logOutCatch, Res.status, Res.json])
        (by intro calls; simp [logOutInvalid, Res.status, Res.json])
        (by intro calls id
            simp [logOutOk, Res.status, Res.json, Res.clearCookie, sessionAttributes,
              isProduction_iff])
  refine ⟨?_, ?_, ?_, ?_, ?_, hout.1, ?_, hreg.2, hlog.2, href.2, hout.2⟩
  · intro body saved a r hbody hfirst hlast hemail hpass hsave haccess hrefresh
    have h1 := (jsval_falsy_eq_false_iff _).2 hfirst
    have h2 := (jsval_falsy_eq_false_iff _).2 hlast
    have h3 := (jsval_falsy_eq_false_iff _).2 hemail
    have h4 := (jsval_falsy_eq_false_iff _).2 hpass
    simp [registerUser, hbody, h1, h2, h3, h4, hsave, haccess, hrefresh, Res.status,
      Res.cookie, Res.json, isProduction_eq_decide]
  · intro body user a r hbody hfind hcheck haccess hrefresh
    simp [loginUser, hbody, hfind, hcheck, haccess, hrefresh, Res.status, Res.cookie, Res.json,
      isProduction_eq_decide]
  · intro jar id user a r hjar htoken hverify hfind haccess hrefresh
    have h := (falsy_eq_false_iff _).2 htoken
    simp [refreshToken, hjar, h, hverify, Decoded.id, hfind, haccess, hrefresh, Res.cookie,
      Res.json, isProduction_eq_decide]
  · intro jar id hjar htoken hverify
    have h := (falsy_eq_false_iff _).2 htoken
    simp [logOutUser, hjar, h, hverify, Res.status, Res.clearCookie, Res.json, isProduction_eq_decide]
  · rintro c (h | h | h)
    · exact hreg.1 c h
    · exact hlog.1 c h
    · exact href.1 c h
  · cases hu : req.user with
    | none => simp [authorise, hu]
    | some caller =>
      by_cases hrole : caller.role = some "admin"
      · simp [authorise, hu, hrole]
      · simp [authorise, hu, hrole, Res.status, Res.json]

/-- Witness of C9 on the example deployment (production): the cookie set by a
successful Register, Login and Refresh and the cookie cleared by a successful
Logout. -/
theorem cookie_contract_witness :
    (registerUser demoEnv registerReq).res.cookies =
      [{ name := "refreshToken", value := some "rt2-u2", httpOnly := true, secure := true,
         sameSite := "strict", maxAge := some 604800000 }] ∧
    (loginUser demoEnv goodLoginReq).res.cookies =
      [{ name := "refreshToken", value := some "rt2-u1", httpOnly := true, secure := true,
         sameSite := "strict", maxAge := some 604800000 }] ∧
    (refreshToken demoEnv goodCookieReq).res.cookies =
      [{ name := "refreshToken", value := some "rt2-u1", httpOnly := true, secure := true,
         sameSite := "strict", maxAge := some 604800000 }] ∧
    (logOutUser demoEnv goodCookieReq).res.cookies =
      [{ name := "refreshToken", value := none, httpOnly := true, secure := true,
         sameSite := "strict", maxAge := none }] :=
  ⟨(cookie_contract demoEnv registerReq).1
      { firstname := .str "Grace", lastname := .str "Hopper",
        email := .str "grace@example.com", password := .str "pw" }
      { id := some "u2", firstname := some "Grace", lastname := some "Hopper",
        email := some "grace@example.com", password := some "pw",
        fullname := some "Grace Hopper", role := some "user" }
      "at-u2" "rt2-u2" rfl (by decide) (by decide) (by decide) (by decide) rfl rfl rfl,
   (cookie_contract demoEnv goodLoginReq).2.1
      { email := .str "ada@example.com", password := .str "secret" } ada "at-u1" "rt2-u1"
      rfl rfl rfl rfl rfl,
   (cookie_contract demoEnv goodCookieReq).2.2.1 { refreshToken := some "rt-u1" } (some "u1") ada
      "at-u1" "rt2-u1" rfl (by decide) rfl rfl rfl rfl,
   (cookie_contract demoEnv goodCookieReq).2.2.2.1 { refreshToken := some "rt-u1" } (some "u1")
      rfl (by decide) rfl⟩

/-! ## Failure handling -/

/-- C10, counterexample: on a request with no attached user `authorise` sends
no response and does not call next, and the TypeError of reading `user.role`
leaves the middleware; on a request without parsed cookies `logOutUser` sends
no response, and the TypeError of reading `req.cookies.refreshToken` leaves the
handler; and the body `refreshToken` sends from its catch block, here for a
cookie that does not verify, has a message but no status. -/
theorem uncaught_failures :
    ((authorise bareReq).outcome.escaped =
        some { message := "Cannot read properties of undefined (reading \x27role\x27)" } ∧
      (authorise bareReq).outcome.res.body = none ∧
      (authorise bareReq).outcome.nextCalls = 0) ∧
    ((logOutUser demoEnv bareReq).escaped =
        some { message := "Cannot read properties of undefined (reading \x27refreshToken\x27)" } ∧
      (logOutUser demoEnv bareReq).res.body = none) ∧
    ((refreshToken demoEnv tamperedCookieReq).res.statusCode = 403 ∧
      (refreshToken demoEnv tamperedCookieReq).res.body =
        some { status := none, message := some "Invalid or expired refresh token" }) := by
  decide

/-- C10, amended: for every request and every behaviour of the collaborators,
(1) `registerUser` lets no exception escape and sends a JSON body with status
and message, its status code is 200, 400 or 500, every failure body has the
shape `{status, message, error?}` and every 500 body carries the error text;
(2) `loginUser` does the same with the status codes 200, 404 and 500;
(3) `refreshToken` lets no exception escape and always sends a JSON body, its
status code is 200, 401 or 403, every failure body has a message and neither
data, token nor error text, and the 401 body has the shape `{status, message}`;
(4) so has the 403 body sent when the user of the claims is not found;
(5) `logOutUser`, on a request with parsed cookies, lets no exception escape and
sends a body of the shape `{status, message, error?}`, with the error text on
every 500, its status code being 200, 401, 404 or 500;
(6) `authorise`, on a request with an attached user, lets no exception escape
and either calls next once without answering or answers 401 with a
`{status, message}` body without calling next;
(7) `authorise`, on a request with no attached user, answers nothing, does not
call next, and its exception leaves the middleware. -/
theorem handlers_catch_failures (env : Env) (req : Req) :
    ((registerUser env req).escaped = none ∧
      ((registerUser env req).res.statusCode = 200 ∨ (registerUser env req).res.statusCode = 400 ∨
        (registerUser env req).res.statusCode = 500) ∧
      ∃ b, (registerUser env req).res.body = some b ∧ b.status ≠ none ∧ b.message ≠ none ∧
        ((registerUser env req).res.statusCode ≠ 200 → b.isFailureShape) ∧
        ((registerUser env req).res.statusCode = 500 → b.error ≠ none)) ∧
    ((loginUser env req).escaped = none ∧
      ((loginUser env req).res.statusCode = 200 ∨ (loginUser env req).res.statusCode = 404 ∨
        (loginUser env req).res.statusCode = 500) ∧
      ∃ b, (loginUser env req).res.body = some b ∧ b.status ≠ none ∧ b.message ≠ none ∧
        ((loginUser env req).res.statusCode ≠ 200 → b.isFailureShape) ∧
        ((loginUser env req).res.statusCode = 500 → b.error ≠ none)) ∧
    ((refreshToken env req).escaped = none ∧
      ((refreshToken env req).res.statusCode = 200 ∨ (refreshToken env req).res.statusCode = 401 ∨
        (refreshToken env req).res.statusCode = 403) ∧
      ∃ b, (refreshToken env req).res.body = some b ∧
        ((refreshToken env req).res.statusCode ≠ 200 →
          b.message ≠ none ∧ b.data = none ∧ b.accessToken = none ∧ b.error = none) ∧
        ((refreshToken env req).res.statusCode = 401 → b.isFailureShape)) ∧
    (∀ jar payload id, req.cookies = some jar →
      (jar.refreshToken ≠ none ∧ jar.refreshToken ≠ some "") →
      env.jwtVerify jar.refreshToken env.refreshTokenSecret = .ok payload →
      payload.id = .ok id → env.findById id = .ok none →
      (refreshToken env req).res.statusCode = 403 ∧
      ∃ b, (refreshToken env req).res.body = some b ∧ b.isFailureShape) ∧
    (req.cookies ≠ none →
      (logOutUser env req).escaped = none ∧
      ((logOutUser env req).res.statusCode = 200 ∨ (logOutUser env req).res.statusCode = 401 ∨
        (logOutUser env req).res.statusCode = 404 ∨ (logOutUser env req).res.statusCode = 500) ∧
      ∃ b, (logOutUser env req).res.body = some b ∧ b.isFailureShape ∧
        ((logOutUser env req).res.statusCode = 500 → b.error ≠ none)) ∧
    (req.user ≠ none →
      (authorise req).outcome.escaped = none ∧
      (((authorise req).outcome.nextCalls = 1 ∧ (authorise req).outcome.res.body = none) ∨
        ((authorise req).outcome.nextCalls = 0 ∧ (authorise req).outcome.res.statusCode = 401 ∧
          ∃ b, (authorise req).outcome.res.body = some b ∧ b.isFailureShape))) ∧
    (req.user = none →
      (authorise req).outcome.escaped ≠ none ∧ (authorise req).outcome.res.body = none ∧
      (authorise req).outcome.nextCalls = 0) := by
  refine ⟨?_, ?_, ?_, ?_, ?_, ?_, ?_⟩
  · apply registerUser_cases env req
      (fun out => out.escaped = none ∧
        (out.res.statusCode = 200 ∨ out.res.statusCode = 400 ∨ out.res.statusCode = 500) ∧
        ∃ b, out.res.body = some b ∧ b.status ≠ none ∧ b.message ≠ none ∧
          (out.res.statusCode ≠ 200 → b.isFailureShape) ∧
          (out.res.statusCode = 500 → b.error ≠ none))
    · simp [registerInvalid, Res.status, Res.json, Body.isFailureShape]
    · intro calls err
      simp [registerCatch, Res.status, Res.json, Body.isFailureShape]
    · intro calls user a r
      simp [registerOk, Res.status, Res.json, Res.cookie]
  · apply loginUser_cases env req
      (fun out => out.escaped = none ∧
        (out.res.statusCode = 200 ∨ out.res.statusCode = 404 ∨ out.res.statusCode = 500) ∧
        ∃ b, out.res.body = some b ∧ b.status ≠ none ∧ b.message ≠ none ∧
          (out.res.statusCode ≠ 200 → b.isFailureShape) ∧
          (out.res.statusCode = 500 → b.error ≠ none))
    · intro calls
      simp [loginNoUser, Res.status, Res.json, Body.isFailureShape]
    · intro calls
      simp [loginBadPassword, Res.status, Res.json, Body.isFailureShape]
    · intro calls err
      simp [loginCatch, Res.status, Res.json, Body.isFailureShape]
    · intro calls user r
      simp [loginOk, Res.status, Res.json, Res.cookie]
  · apply refreshToken_cases env req
      (fun out => out.escaped = none ∧
        (out.res.statusCode = 200 ∨ out.res.statusCode = 401 ∨ out.res.statusCode = 403) ∧
        ∃ b, out.res.body = some b ∧
          (out.res.statusCode ≠ 200 →
            b.message ≠ none ∧ b.data = none ∧ b.accessToken = none ∧ b.error = none) ∧
          (out.res.statusCode = 401 → b.isFailureShape))
    · simp [refreshNoToken, Res.status, Res.json, Body.isFailureShape]
    · intro calls
      simp [refreshCatch, Res.status, Res.json]
    · intro calls
      simp [refreshNoUser, Res.status, Res.json]
    · intro calls a r
      simp [refreshOk, Res.json, Res.cookie]
  · intro jar payload id hjar htoken hverify hid hfind
    have h := (falsy_eq_false_iff _).2 htoken
    simp [refreshToken, hjar, h, hverify, hid, hfind, Res.status, Res.json, Body.isFailureShape]
  · intro hc
    cases hjar : req.cookies with
    | none => exact absurd hjar hc
    | some jar =>
      apply logOutUser_cases env req jar
        (fun out => out.escaped = none ∧
          (out.res.statusCode = 200 ∨ out.res.statusCode = 401 ∨ out.res.statusCode = 404 ∨
            out.res.statusCode = 500) ∧
          ∃ b, out.res.body = some b ∧ b.isFailureShape ∧
            (out.res.statusCode = 500 → b.error ≠ none)) hjar
      · simp [logOutNoToken, Res.status, Res.json, Body.isFailureShape]
      · intro calls err
        simp [logOutCatch, Res.status, Res.json, Body.isFailureShape]
      · intro calls
        simp [logOutInvalid, Res.status, Res.json, Body.isFailureShape]
      · intro calls id
        simp [logOutOk, Res.status, Res.json, Res.clearCookie, Body.isFailureShape]
  · intro hu
    cases huser : req.user with
    | none => exact absurd huser hu
    | some caller =>
      by_cases hrole : caller.role = some "admin"
      · simp [authorise, huser, hrole]
      · simp [authorise, huser, hrole, Res.status, Res.json, Body.isFailureShape]
  · intro hu
    simp [authorise, hu]

/-- Witness of C10 as amended, on the example deployment: a Logout with a
cookie that does not verify is caught and answered with a failure body that
carries the error text; a Refresh for a user that is gone is answered 403 with
a `{status, message}` body; a plain user is rejected by `authorise` with a 401
body; and without an attached user the exception leaves `authorise`. -/
theorem handlers_catch_failures_witness :
    (tamperedCookieReq.cookies ≠ none ∧
      (logOutUser demoEnv tamperedCookieReq).escaped = none ∧
      ((logOutUser demoEnv tamperedCookieReq).res.statusCode = 200 ∨
        (logOutUser demoEnv tamperedCookieReq).res.statusCode = 401 ∨
        (logOutUser demoEnv tamperedCookieReq).res.statusCode = 404 ∨
        (logOutUser demoEnv tamperedCookieReq).res.statusCode = 500) ∧
      ∃ b, (logOutUser demoEnv tamperedCookieReq).res.body = some b ∧ b.isFailureShape ∧
        ((logOutUser demoEnv tamperedCookieReq).res.statusCode = 500 → b.error ≠ none)) ∧
    ((refreshToken demoEnv goneUserReq).res.statusCode = 403 ∧
      ∃ b, (refreshToken demoEnv goneUserReq).res.body = some b ∧ b.isFailureShape) ∧
    (bareReq.user = none ∧
      (authorise bareReq).outcome.escaped ≠ none ∧ (authorise bareReq).outcome.res.body = none ∧
      (authorise bareReq).outcome.nextCalls = 0) :=
  ⟨⟨by decide, (handlers_catch_failures demoEnv tamperedCookieReq).2.2.2.2.1 (by decide)⟩,
   (handlers_catch_failures demoEnv goneUserReq).2.2.2.1 { refreshToken := some "rt-gone" }
     (.claims (some "u9")) (some "u9") rfl (by decide) rfl rfl rfl,
   rfl, (handlers_catch_failures demoEnv bareReq).2.2.2.2.2.2 rfl⟩

end AuthController
